import Mathlib

/-!
Shallow embedding of the worker-side execution engine of the dispatcher
library (`worker.go`).  Pure control flow is translated into Lean
functions; external broker operations (opening a channel, declaring a
queue, binding, setting QoS, registering a consumer) are modelled as
oracles recording whether each call failed; the external value decoder
(`utils.ReflectValue`) and the JSON envelope decoder (`json.Unmarshal`)
are parameters; the opaque handler (`TaskConfig.Function`, invoked via
reflection) is modelled by the outcome its call produces on the decoded
arguments.  Go panic/recover semantics are made explicit: a `recover`
installed by `defer` in a function intercepts a panic raised in that
same goroutine, while a panic raised in a different goroutine with no
recover of its own terminates the whole process.
-/

namespace Dispatcher

/-- A Go `interface{}` value carried in a task argument: strings are
distinguished (the synthetic UUID argument is a string), everything else
is opaque. -/
inductive GoValue where
  | str : String → GoValue
  | int : Int → GoValue
  | other : Nat → GoValue
deriving DecidableEq, Repr

/-- `TaskArgument` from `worker.go`: the wire-level typed argument.  The
Go field `Type` (a Lean keyword) is rendered `typ`. -/
structure TaskArgument where
  typ : String
  Value : GoValue
deriving DecidableEq, Repr

/-- `Task`, the wire entity: dispatch name, correlation UUID, ordered
arguments. -/
structure Task where
  Name : String
  UUID : String
  Args : List TaskArgument
deriving DecidableEq, Repr

/-- Outcome of `f.Call(args)` on the reflected handler: either a normal
return carrying result values, or a panic. -/
inductive CallOutcome where
  | ret : List GoValue → CallOutcome
  | panics : CallOutcome

/-- `TaskConfig` from `worker.go`.  `Function` is the opaque handler,
modelled by the call outcome it produces on the decoded argument list. -/
structure TaskConfigM where
  TimeoutSeconds : Int
  Function : List GoValue → CallOutcome
  TaskUUIDAsFirstArg : Bool

/-- What `tryCall` does, observationally.  `returned` is `some flag`
when `tryCall` returns `finishedByTimeout = flag` to its caller and
`none` when the process dies before `tryCall` can return.
`processCrashes` records an unrecovered panic killing the process;
`spawnedAsync` records whether the invocation ran in a spawned
goroutine; `loggedStack` records whether the deferred `recover` fired
and printed `debug.Stack()`. -/
structure TryCallResult where
  returned : Option Bool
  processCrashes : Bool
  spawnedAsync : Bool
  loggedStack : Bool
deriving DecidableEq, Repr

/-- `tryCall` from `worker.go`.  `call` is the outcome of
`f.Call(args)`.  With `timeoutSeconds = 0` the call runs synchronously
in `tryCall`'s goroutine, so the deferred `recover` intercepts a panic
and the named return keeps its zero value `false`.  Otherwise the call
runs in a spawned goroutine racing a timer; `timerFirst` says whether
the timer resolves before the call does.  A panic in the spawned
goroutine is not covered by any `recover` (the `defer` sits in
`tryCall`'s goroutine), so it terminates the process: if the timer had
already won, `tryCall` returns `true` and the process dies afterwards;
if not, the process dies before `tryCall` can return. -/
def tryCall (call : CallOutcome) (timeoutSeconds : Int) (timerFirst : Bool) :
    TryCallResult :=
  if timeoutSeconds = 0 then
    match call with
    | .ret _ => ⟨some false, false, false, false⟩
    | .panics => ⟨some false, false, false, true⟩
  else
    match call with
    | .ret _ => ⟨some timerFirst, false, true, false⟩
    | .panics => ⟨if timerFirst then some true else none, true, true, false⟩

/-- Model of the external decoder `utils.ReflectValue`:
`(typeTag, rawValue) → nativeArgument | decodeError`. -/
def ReflectValueT : Type := String → GoValue → Except String GoValue

/-- `reflectArgs` from `worker.go`: decode every argument in order,
returning the first decode error. -/
def reflectArgs (dec : ReflectValueT) : List TaskArgument → Except String (List GoValue)
  | [] => .ok []
  | a :: rest =>
    match dec a.typ a.Value with
    | .error e => .error e
    | .ok v =>
      match reflectArgs dec rest with
      | .error e => .error e
      | .ok vs => .ok (v :: vs)

/-- The terminal broker decision for one delivery. -/
inductive AckDecision where
  | ack : AckDecision
  | nack : Bool → AckDecision
deriving DecidableEq, Repr

/-- The argument list `consumeOne` feeds to `reflectArgs` and to the
handler: `task.Args`, with the synthetic `{"string", task.UUID}`
argument prepended when `TaskUUIDAsFirstArg` is set. -/
def effectiveArgs (task : Task) (cfg : TaskConfigM) : List TaskArgument :=
  if cfg.TaskUUIDAsFirstArg then ⟨"string", .str task.UUID⟩ :: task.Args
  else task.Args

/-- Observable behaviour of one `consumeOne` execution unit.
`decision` is the terminal ack/nack issued (`none` when the process
crashed before any decision); `invoked` records whether the handler was
called; `timeoutFlag` is the `finishedByTimeout` value used only for
choosing the log message. -/
structure ConsumeOneResult where
  argsUsed : List TaskArgument
  invoked : Bool
  decision : Option AckDecision
  crashed : Bool
  timeoutFlag : Option Bool

/-- `consumeOne` from `worker.go`: prepend the UUID argument if
configured, decode the arguments (`Nack(false, false)` and stop on the
first decode error, without calling the handler), otherwise call the
handler under `tryCall` and, once `tryCall` returns, issue `Ack(false)`
regardless of the timeout flag. -/
def consumeOne (task : Task) (cfg : TaskConfigM) (dec : ReflectValueT)
    (timerFirst : Bool) : ConsumeOneResult :=
  let args := effectiveArgs task cfg
  match reflectArgs dec args with
  | .error _ =>
    { argsUsed := args, invoked := false, decision := some (.nack false),
      crashed := false, timeoutFlag := none }
  | .ok vals =>
    let r := tryCall (cfg.Function vals) cfg.TimeoutSeconds timerFirst
    match r.returned with
    | some flag =>
      { argsUsed := args, invoked := true, decision := some .ack,
        crashed := r.processCrashes, timeoutFlag := some flag }
    | none =>
      { argsUsed := args, invoked := true, decision := none,
        crashed := true, timeoutFlag := none }

/-- Model of `json.Unmarshal` of a delivery body into a `Task`:
external, so a parameter. -/
def EnvelopeParser : Type := String → Option Task

/-- What one iteration of the `consume` loop does with a delivery.
`nacked requeue logged` reports the `Nack(false, requeue)` issued and
the raw payload included in the log line, if any; `dispatched` reports
that the in-flight counter was incremented and a `consumeOne` unit
spawned. -/
inductive ConsumeStepResult where
  | nacked : Bool → Option String → ConsumeStepResult
  | dispatched : Task → TaskConfigM → ConsumeStepResult

/-- The delivery branch of `consume` from `worker.go` (the
`case d := <-deliveries` arm of the loop): empty body →
`Nack(false, false)`; body that fails to parse → `Nack(false, false)`,
logged with the raw payload; parsed task not in the dispatch table →
`Nack(false, true)`; registered task → increment in-flight, spawn
`consumeOne`. -/
def consumeDeliveryStep (tasks : List (String × TaskConfigM))
    (body : String) (parse : EnvelopeParser) : ConsumeStepResult :=
  if body.length = 0 then .nacked false none
  else
    match parse body with
    | none => .nacked false (some body)
    | some task =>
      match tasks.lookup task.Name with
      | none => .nacked true none
      | some cfg => .dispatched task cfg

/-- `WorkerConfig` from `worker.go`. -/
structure WorkerConfig where
  Limit : Int
  Queue : String
  BindingKeys : List String
  Name : String

/-- The `Worker` fields the claims observe: immutable identity plus the
`working` flag, the dispatch table, and whether the consumption loop
goroutine has been launched. -/
structure WorkerM where
  name : String
  queue : String
  limit : Int
  tasks : List (String × TaskConfigM)
  working : Bool
  consumeLoopStarted : Bool

/-- The distinct creation/start errors of `worker.go` (the Go code uses
`errors.New`/`fmt.Errorf` strings; `broker e` wraps an error from an
external broker call). -/
inductive WorkerError where
  | notConnected : WorkerError
  | nameRequired : WorkerError
  | queueRequired : WorkerError
  | duplicateName : WorkerError
  | broker : String → WorkerError
deriving DecidableEq, Repr

/-- The `Server` state the claims observe: connection status and the
`s.workers` registry (name → Worker, first binding wins on lookup). -/
structure ServerState where
  connected : Bool
  workers : List (String × WorkerM)

/-- Oracle for the external broker calls made by `NewWorker`:
`s.con.con.Channel()`, `declareQueue`, and `queueBind` per binding key
(`some e` = that call fails with error `e`). -/
structure SetupOracle where
  chanErr : Option String
  declareErr : Option String
  bindErr : String → Option String

/-- The first `queueBind` failure over the binding keys, in order. -/
def firstBindError (o : SetupOracle) : List String → Option String
  | [] => none
  | k :: ks =>
    match o.bindErr k with
    | some e => some e
    | none => firstBindError o ks

/-- Everything `NewWorker` leaves behind: its return value, the registry
afterwards, and the caller's `WorkerConfig` afterwards (Go passes
`*WorkerConfig`, and the function writes `cfg.Limit` in place). -/
structure NewWorkerOutcome where
  res : Except WorkerError WorkerM
  workers : List (String × WorkerM)
  cfg : WorkerConfig

/-- The `Limit` defaulting of `NewWorker`: when `cfg.Limit == 0` the Go
code assigns `cfg.Limit = 3`, a write through the caller's pointer,
performed after the connection and `Name` checks and before everything
else. -/
def defaultLimit (cfg : WorkerConfig) : WorkerConfig :=
  if cfg.Limit = 0 then { cfg with Limit := 3 } else cfg

/-- The `Worker` value `NewWorker` constructs (`w := &Worker(...)` in
`worker.go`): identity from the (defaulted) config, the dispatch table,
`working` unset, no consumption loop yet. -/
def mkWorker (cfg : WorkerConfig) (tasks : List (String × TaskConfigM)) : WorkerM :=
  { name := cfg.Name, queue := cfg.Queue, limit := cfg.Limit,
    tasks := tasks, working := false, consumeLoopStarted := false }

/-- The remainder of `NewWorker` after the `Limit` default: empty
`Queue` check, duplicate-name check, transient channel, queue
declaration, bindings in order, and only then registration under
`cfg.Name`. -/
def newWorkerSetup (s : ServerState) (cfg : WorkerConfig)
    (tasks : List (String × TaskConfigM)) (o : SetupOracle) : NewWorkerOutcome :=
  if cfg.Queue = "" then ⟨.error .queueRequired, s.workers, cfg⟩
  else if (s.workers.lookup cfg.Name).isSome then
    ⟨.error .duplicateName, s.workers, cfg⟩
  else
    match o.chanErr with
    | some e => ⟨.error (.broker e), s.workers, cfg⟩
    | none =>
      match o.declareErr with
      | some e => ⟨.error (.broker e), s.workers, cfg⟩
      | none =>
        match firstBindError o cfg.BindingKeys with
        | some e => ⟨.error (.broker e), s.workers, cfg⟩
        | none =>
          ⟨.ok (mkWorker cfg tasks), (cfg.Name, mkWorker cfg tasks) :: s.workers, cfg⟩

/-- `NewWorker` from `worker.go`, step for step: connection check, empty
`Name` check, then the in-place `Limit` default followed by the
remaining checks, declarations, and registration on the mutated
config. -/
def NewWorker (s : ServerState) (cfg : WorkerConfig)
    (tasks : List (String × TaskConfigM)) (o : SetupOracle) : NewWorkerOutcome :=
  if ¬ s.connected then ⟨.error .notConnected, s.workers, cfg⟩
  else if cfg.Name = "" then ⟨.error .nameRequired, s.workers, cfg⟩
  else newWorkerSetup s (defaultLimit cfg) tasks o

/-- Oracle for the external broker calls made by `init`: the dedicated
channel, `Qos`, and `Consume`. -/
structure StartOracle where
  chanErr : Option String
  qosErr : Option String
  consumeErr : Option String

/-- Everything `Start`/`init` leaves behind: the return value, the
worker afterwards, and the arguments of the `Qos` call, if one was made
(prefetch count, prefetch size, global). -/
structure InitOutcome where
  res : Except WorkerError Unit
  w : WorkerM
  qosCall : Option (Int × Int × Bool)

/-- `init` from `worker.go`: sets `w.working = true` first, then opens
the dedicated channel, then calls `Qos(w.limit, 0, false)`, then
`Consume`; any failure returns the error at that point (nothing resets
`working`); on success the `consume` loop goroutine is launched. -/
def WorkerM.init (w : WorkerM) (o : StartOracle) : InitOutcome :=
  let w := { w with working := true }
  match o.chanErr with
  | some e => ⟨.error (.broker e), w, none⟩
  | none =>
    match o.qosErr with
    | some e => ⟨.error (.broker e), w, some (w.limit, 0, false)⟩
    | none =>
      match o.consumeErr with
      | some e => ⟨.error (.broker e), w, some (w.limit, 0, false)⟩
      | none =>
        ⟨.ok (), { w with consumeLoopStarted := true }, some (w.limit, 0, false)⟩

/-- `Start` from `worker.go`: fails fast when not connected, otherwise
runs `init` on the server's connection. -/
def WorkerM.Start (w : WorkerM) (s : ServerState) (o : StartOracle) : InitOutcome :=
  if ¬ s.connected then ⟨.error .notConnected, w, none⟩
  else w.init o

/-- What `Close` leaves behind.  `performedShutdown` is false exactly
when the `!w.working` guard returned immediately: no stop signal sent,
no waiting on the stop-acknowledgment or the in-flight counter, no
channel close. -/
structure CloseOutcome where
  w : WorkerM
  performedShutdown : Bool

/-- `Close` from `worker.go`: if the worker is not working, return at
once; otherwise flip `working` off and run the full shutdown sequence
(stop signal, stop-acknowledgment, drain, channel close). -/
def WorkerM.Close (w : WorkerM) : CloseOutcome :=
  if ¬ w.working then ⟨w, false⟩
  else ⟨{ w with working := false }, true⟩

/-- C1 (amended): any failure during `Worker.Start`/`init` — opening the
channel, setting prefetch QoS, or registering the consumer — makes
`Start` return an error, but the `working` flag has already been set to
`true` at the top of `init`, before the first fallible step, and nothing
resets it: the Worker is left marked as working. -/
theorem start_failure_leaves_working_set (s : ServerState) (w : WorkerM)
    (o : StartOracle) (hc : s.connected = true)
    (hf : o.chanErr.isSome = true ∨ o.qosErr.isSome = true ∨ o.consumeErr.isSome = true) :
    (∃ e, (w.Start s o).res = .error e) ∧ (w.Start s o).w.working = true := by
  unfold WorkerM.Start WorkerM.init
  simp only [hc, not_true, if_neg, ite_false, Bool.not_true]
  cases hch : o.chanErr with
  | some e => exact ⟨⟨.broker e, by simp⟩, by simp⟩
  | none =>
    cases hq : o.qosErr with
    | some e => exact ⟨⟨.broker e, by simp⟩, by simp⟩
    | none =>
      cases hco : o.consumeErr with
      | some e => exact ⟨⟨.broker e, by simp⟩, by simp⟩
      | none => rw [hch, hq, hco] at hf; simp at hf

/-- C1 witness: a connected server, a worker, and a channel-open failure. -/
theorem start_failure_leaves_working_set_witness :
    (∃ e, (WorkerM.Start ⟨"w1", "q", 3, [], false, false⟩ ⟨true, []⟩
        ⟨some "boom", none, none⟩).res = .error e) ∧
    (WorkerM.Start ⟨"w1", "q", 3, [], false, false⟩ ⟨true, []⟩
        ⟨some "boom", none, none⟩).w.working = true :=
  start_failure_leaves_working_set ⟨true, []⟩ ⟨"w1", "q", 3, [], false, false⟩
    ⟨some "boom", none, none⟩ rfl (Or.inl rfl)

/-- C1 counterexample: with a connected server and a worker whose
`working` flag is `false`, a channel-open failure makes `Start` return
an error while the `working` flag ends up `true`, refuting "the
Worker's working flag remains unset". -/
theorem start_failure_working_counterexample :
    (WorkerM.Start ⟨"w1", "q", 3, [], false, false⟩ ⟨true, []⟩
        ⟨some "boom", none, none⟩).res = .error (.broker "boom") ∧
    (WorkerM.Start ⟨"w1", "q", 3, [], false, false⟩ ⟨true, []⟩
        ⟨some "boom", none, none⟩).w.working = true :=
  ⟨rfl, rfl⟩

/-- C2 (code bug): when `TimeoutSeconds` is positive, the handler runs
in a spawned goroutine, where the `defer recover` installed in
`tryCall`'s own goroutine cannot intercept a panic, so the process
crashes (`processCrashes = true`); with the timer losing the race the
call never returns at all.  By contrast, in the synchronous
`TimeoutSeconds = 0` path the panic is recovered, the stack is logged,
and `tryCall` returns `false` — the behaviour the claim describes holds
only there. -/
theorem tryCall_goroutine_panic_crashes :
    tryCall CallOutcome.panics 1 false = ⟨none, true, true, false⟩ ∧
    (tryCall CallOutcome.panics 1 true).processCrashes = true ∧
    tryCall CallOutcome.panics 0 false = ⟨some false, false, false, true⟩ := by
  decide

/-- C3: for an accepted delivery, `consumeOne` issues exactly one
terminal decision: `Nack(requeue = false)` with the handler never
invoked when argument decoding fails, and otherwise a positive `Ack`
whenever the timeout guard returns — whatever flag it returned with. -/
theorem consumeOne_terminal_decision (task : Task) (cfg : TaskConfigM)
    (dec : ReflectValueT) (timerFirst : Bool) :
    (∀ e, reflectArgs dec (effectiveArgs task cfg) = .error e →
      (consumeOne task cfg dec timerFirst).decision = some (.nack false) ∧
      (consumeOne task cfg dec timerFirst).invoked = false) ∧
    (∀ vals flag, reflectArgs dec (effectiveArgs task cfg) = .ok vals →
      (tryCall (cfg.Function vals) cfg.TimeoutSeconds timerFirst).returned = some flag →
      (consumeOne task cfg dec timerFirst).decision = some .ack) := by
  constructor
  · intro e he
    simp [consumeOne, he]
  · intro vals flag hok hret
    simp [consumeOne, hok, hret]

/-- C3 witness: a decode failure yields `Nack(false)` without
invocation; a successful decode with a returning guard yields `Ack`. -/
theorem consumeOne_terminal_decision_witness :
    ((consumeOne ⟨"t", "u", [⟨"int", .int 5⟩]⟩ ⟨0, fun _ => .ret [], false⟩
        (fun _ _ => .error "bad") false).decision = some (.nack false) ∧
     (consumeOne ⟨"t", "u", [⟨"int", .int 5⟩]⟩ ⟨0, fun _ => .ret [], false⟩
        (fun _ _ => .error "bad") false).invoked = false) ∧
    (consumeOne ⟨"t", "u", [⟨"int", .int 5⟩]⟩ ⟨0, fun _ => .ret [], false⟩
        (fun _ v => .ok v) false).decision = some .ack :=
  ⟨(consumeOne_terminal_decision ⟨"t", "u", [⟨"int", .int 5⟩]⟩
      ⟨0, fun _ => .ret [], false⟩ (fun _ _ => .error "bad") false).1 "bad" rfl,
   (consumeOne_terminal_decision ⟨"t", "u", [⟨"int", .int 5⟩]⟩
      ⟨0, fun _ => .ret [], false⟩ (fun _ v => .ok v) false).2 [.int 5] false rfl rfl⟩

/-- The defaulting step never changes `Name`. -/
theorem defaultLimit_Name (cfg : WorkerConfig) : (defaultLimit cfg).Name = cfg.Name := by
  unfold defaultLimit
  split <;> rfl

/-- `newWorkerSetup` returns the config it was given unchanged. -/
theorem newWorkerSetup_cfg (s : ServerState) (cfg : WorkerConfig)
    (tasks : List (String × TaskConfigM)) (o : SetupOracle) :
    (newWorkerSetup s cfg tasks o).cfg = cfg := by
  unfold newWorkerSetup
  repeat' split
  all_goals rfl

/-- Case analysis on `newWorkerSetup`: either it fails and leaves the
registry untouched, or it succeeds, prepends the new entry, and the name
was previously unregistered. -/
theorem newWorkerSetup_cases (s : ServerState) (cfg : WorkerConfig)
    (tasks : List (String × TaskConfigM)) (o : SetupOracle) :
    ((∃ e, (newWorkerSetup s cfg tasks o).res = .error e) ∧
      (newWorkerSetup s cfg tasks o).workers = s.workers) ∨
    (∃ w, (newWorkerSetup s cfg tasks o).res = .ok w ∧
      (newWorkerSetup s cfg tasks o).workers = (cfg.Name, w) :: s.workers ∧
      s.workers.lookup cfg.Name = none) := by
  unfold newWorkerSetup
  split
  · exact Or.inl ⟨⟨.queueRequired, rfl⟩, rfl⟩
  · split
    · exact Or.inl ⟨⟨.duplicateName, rfl⟩, rfl⟩
    next hdup =>
      split
      next e heq => exact Or.inl ⟨⟨.broker e, rfl⟩, rfl⟩
      next heq =>
        split
        next e heq2 => exact Or.inl ⟨⟨.broker e, rfl⟩, rfl⟩
        next heq2 =>
          split
          next e heq3 => exact Or.inl ⟨⟨.broker e, rfl⟩, rfl⟩
          next heq3 =>
            exact Or.inr ⟨_, rfl, rfl, Option.not_isSome_iff_eq_none.mp hdup⟩

/-- On success, the created worker's `limit` is the config's `Limit`. -/
theorem newWorkerSetup_ok_limit (s : ServerState) (cfg : WorkerConfig)
    (tasks : List (String × TaskConfigM)) (o : SetupOracle) (w : WorkerM)
    (hok : (newWorkerSetup s cfg tasks o).res = .ok w) : w.limit = cfg.Limit := by
  unfold newWorkerSetup at hok
  repeat' split at hok
  all_goals first
    | (injection hok with h; subst h; rfl)
    | injection hok

/-- C4: a failing `NewWorker` — not connected, empty `Name`, empty
`Queue`, duplicate `Name`, or channel/declare/bind error — leaves the
registry untouched; a name already registered makes a second creation
fail with the registry still mapping that name to the first worker; and
registration happens exactly on success. -/
theorem newWorker_registry_safety (s : ServerState) (cfg : WorkerConfig)
    (tasks : List (String × TaskConfigM)) (o : SetupOracle) :
    ((∃ e, (NewWorker s cfg tasks o).res = .error e) →
      (NewWorker s cfg tasks o).workers = s.workers) ∧
    (∀ w0, s.workers.lookup cfg.Name = some w0 →
      (∃ e, (NewWorker s cfg tasks o).res = .error e) ∧
      (NewWorker s cfg tasks o).workers.lookup cfg.Name = some w0) ∧
    (∀ w, (NewWorker s cfg tasks o).res = .ok w →
      (NewWorker s cfg tasks o).workers
        = ((NewWorker s cfg tasks o).cfg.Name, w) :: s.workers) := by
  unfold NewWorker
  by_cases hcon : s.connected
  · rw [if_neg (not_not_intro hcon)]
    by_cases hname : cfg.Name = ""
    · rw [if_pos hname]
      exact ⟨fun _ => rfl, fun w0 h => ⟨⟨.nameRequired, rfl⟩, h⟩, fun w hw => nomatch hw⟩
    · rw [if_neg hname]
      rcases newWorkerSetup_cases s (defaultLimit cfg) tasks o with
        ⟨⟨e, he⟩, hw⟩ | ⟨w', hok, hcons, hnone⟩
      · refine ⟨fun _ => hw, fun w0 h0 => ⟨⟨e, he⟩, by rw [hw]; exact h0⟩,
          fun w hwres => ?_⟩
        rw [hwres] at he
        exact nomatch he
      · refine ⟨fun hex => ?_, fun w0 h0 => ?_, fun w hwres => ?_⟩
        · obtain ⟨e, he⟩ := hex
          rw [hok] at he
          exact nomatch he
        · rw [defaultLimit_Name, h0] at hnone
          exact nomatch hnone
        · rw [hok] at hwres
          injection hwres with h
          subst h
          rw [newWorkerSetup_cfg]
          exact hcons
  · rw [if_pos hcon]
    exact ⟨fun _ => rfl, fun w0 h => ⟨⟨.notConnected, rfl⟩, h⟩, fun w hw => nomatch hw⟩

/-- C4 witness: a registry already holding `w1`; a duplicate creation
fails, the registry keeps the first worker, and the registry is
unchanged. -/
theorem newWorker_registry_safety_witness :
    ((∃ e, (NewWorker ⟨true, [("w1", ⟨"w1", "q", 3, [], false, false⟩)]⟩
        ⟨3, "q", [], "w1"⟩ [] ⟨none, none, fun _ => none⟩).res = .error e) ∧
      (NewWorker ⟨true, [("w1", ⟨"w1", "q", 3, [], false, false⟩)]⟩
        ⟨3, "q", [], "w1"⟩ [] ⟨none, none, fun _ => none⟩).workers.lookup "w1"
        = some ⟨"w1", "q", 3, [], false, false⟩) ∧
    (NewWorker ⟨true, [("w1", ⟨"w1", "q", 3, [], false, false⟩)]⟩
        ⟨3, "q", [], "w1"⟩ [] ⟨none, none, fun _ => none⟩).workers
      = [("w1", ⟨"w1", "q", 3, [], false, false⟩)] :=
  ⟨(newWorker_registry_safety ⟨true, [("w1", ⟨"w1", "q", 3, [], false, false⟩)]⟩
      ⟨3, "q", [], "w1"⟩ [] ⟨none, none, fun _ => none⟩).2.1
      ⟨"w1", "q", 3, [], false, false⟩ rfl,
   (newWorker_registry_safety ⟨true, [("w1", ⟨"w1", "q", 3, [], false, false⟩)]⟩
      ⟨3, "q", [], "w1"⟩ [] ⟨none, none, fun _ => none⟩).1
      ⟨.duplicateName, rfl⟩⟩

/-- C5: a `WorkerConfig` with `Limit = 0` yields, on success, a worker
with `limit = 3`, and `init` then calls `Qos` with prefetch count 3,
prefetch size 0, global false. -/
theorem limit_default_prefetch_three (s : ServerState) (cfg : WorkerConfig)
    (tasks : List (String × TaskConfigM)) (o : SetupOracle) (w : WorkerM)
    (o2 : StartOracle) (h0 : cfg.Limit = 0)
    (hok : (NewWorker s cfg tasks o).res = .ok w) (hch : o2.chanErr = none) :
    w.limit = 3 ∧ (w.init o2).qosCall = some (3, 0, false) := by
  unfold NewWorker at hok
  by_cases hcon : s.connected
  · rw [if_neg (not_not_intro hcon)] at hok
    by_cases hname : cfg.Name = ""
    · rw [if_pos hname] at hok
      exact nomatch hok
    · rw [if_neg hname] at hok
      have hlim := newWorkerSetup_ok_limit _ _ _ _ _ hok
      have h3 : (defaultLimit cfg).Limit = 3 := by
        unfold defaultLimit
        rw [if_pos h0]
      rw [h3] at hlim
      refine ⟨hlim, ?_⟩
      unfold WorkerM.init
      rw [hch]
      cases hq : o2.qosErr <;> cases hc2 : o2.consumeErr <;> simp [hlim]
  · rw [if_pos hcon] at hok
    exact nomatch hok

/-- C5 witness: `Limit = 0` in the config; the created worker has
`limit = 3` and `init` records the `Qos(3, 0, false)` call. -/
theorem limit_default_prefetch_three_witness :
    (⟨"w1", "q", 3, [], false, false⟩ : WorkerM).limit = 3 ∧
    (WorkerM.init ⟨"w1", "q", 3, [], false, false⟩ ⟨none, none, none⟩).qosCall
      = some (3, 0, false) :=
  limit_default_prefetch_three ⟨true, []⟩ ⟨0, "q", [], "w1"⟩ []
    ⟨none, none, fun _ => none⟩ ⟨"w1", "q", 3, [], false, false⟩
    ⟨none, none, none⟩ rfl rfl rfl

/-- C10: once past the connection and `Name` checks, `NewWorker`
rewrites the caller's `Limit` from 0 to 3 — and changes nothing else —
whatever happens afterwards (the quantified oracle covers every
subsequent failure); with `Limit ≠ 0` the caller's config is returned
untouched. -/
theorem newWorker_cfg_mutation (s : ServerState) (cfg : WorkerConfig)
    (tasks : List (String × TaskConfigM)) (o : SetupOracle)
    (hc : s.connected = true) (hn : cfg.Name ≠ "") :
    (cfg.Limit = 0 → (NewWorker s cfg tasks o).cfg = { cfg with Limit := 3 }) ∧
    (cfg.Limit ≠ 0 → (NewWorker s cfg tasks o).cfg = cfg) := by
  unfold NewWorker
  rw [if_neg (not_not_intro hc), if_neg hn, newWorkerSetup_cfg]
  constructor
  · intro h
    unfold defaultLimit
    rw [if_pos h]
  · intro h
    unfold defaultLimit
    rw [if_neg h]

/-- C10 witness: creation fails on the empty `Queue`, yet the caller's
config comes back with `Limit` rewritten to 3 and all other fields
intact. -/
theorem newWorker_cfg_mutation_witness :
    (NewWorker ⟨true, []⟩ ⟨0, "", [], "w1"⟩ [] ⟨none, none, fun _ => none⟩).cfg
      = ⟨3, "", [], "w1"⟩ :=
  (newWorker_cfg_mutation ⟨true, []⟩ ⟨0, "", [], "w1"⟩ []
    ⟨none, none, fun _ => none⟩ rfl (by decide)).1 rfl

/-- C6: the consumption loop nacks an empty body with requeue = false,
an unparsable body with requeue = false (logged with the raw payload),
and a parsed task missing from the dispatch table with requeue = true;
a delivery naming a registered task is dispatched, never nacked by the
loop. -/
theorem consume_nack_flags (tasks : List (String × TaskConfigM))
    (body : String) (parse : EnvelopeParser) :
    (body.length = 0 → consumeDeliveryStep tasks body parse = .nacked false none) ∧
    (body.length ≠ 0 → parse body = none →
      consumeDeliveryStep tasks body parse = .nacked false (some body)) ∧
    (∀ t, body.length ≠ 0 → parse body = some t → tasks.lookup t.Name = none →
      consumeDeliveryStep tasks body parse = .nacked true none) ∧
    (∀ t cfg, body.length ≠ 0 → parse body = some t → tasks.lookup t.Name = some cfg →
      consumeDeliveryStep tasks body parse = .dispatched t cfg) :=
  ⟨fun h => by simp [consumeDeliveryStep, h],
   fun h hp => by simp [consumeDeliveryStep, h, hp],
   fun t h hp hl => by simp [consumeDeliveryStep, h, hp, hl],
   fun t cfg h hp hl => by simp [consumeDeliveryStep, h, hp, hl]⟩

/-- C6 witness: the four delivery shapes at concrete inputs. -/
theorem consume_nack_flags_witness :
    consumeDeliveryStep [] "" (fun _ => none) = .nacked false none ∧
    consumeDeliveryStep [] "x" (fun _ => none) = .nacked false (some "x") ∧
    consumeDeliveryStep [] "x" (fun _ => some ⟨"t", "u", []⟩) = .nacked true none ∧
    consumeDeliveryStep [("t", ⟨0, fun _ => CallOutcome.ret [], false⟩)] "x"
        (fun _ => some ⟨"t", "u", []⟩)
      = .dispatched ⟨"t", "u", []⟩ ⟨0, fun _ => CallOutcome.ret [], false⟩ :=
  ⟨(consume_nack_flags [] "" (fun _ => none)).1 rfl,
   (consume_nack_flags [] "x" (fun _ => none)).2.1 (by decide) rfl,
   (consume_nack_flags [] "x" (fun _ => some ⟨"t", "u", []⟩)).2.2.1
     ⟨"t", "u", []⟩ (by decide) rfl rfl,
   (consume_nack_flags [("t", ⟨0, fun _ => CallOutcome.ret [], false⟩)] "x"
     (fun _ => some ⟨"t", "u", []⟩)).2.2.2
     ⟨"t", "u", []⟩ ⟨0, fun _ => CallOutcome.ret [], false⟩ (by decide) rfl rfl⟩

/-- Whatever branch `consumeOne` takes, the arguments it worked on are
`effectiveArgs`. -/
theorem consumeOne_argsUsed (task : Task) (cfg : TaskConfigM)
    (dec : ReflectValueT) (timerFirst : Bool) :
    (consumeOne task cfg dec timerFirst).argsUsed = effectiveArgs task cfg := by
  simp only [consumeOne]
  repeat' split
  all_goals rfl

/-- C7: with `TaskUUIDAsFirstArg` set, the argument list fed to
decoding and invocation is the original `Args` with one synthetic
string-typed argument carrying the task UUID prepended, and decoding it
decodes the UUID argument first and the original arguments after it, in
order. -/
theorem uuid_first_arg_prepended (task : Task) (cfg : TaskConfigM)
    (dec : ReflectValueT) (timerFirst : Bool)
    (h : cfg.TaskUUIDAsFirstArg = true) :
    (consumeOne task cfg dec timerFirst).argsUsed
        = ⟨"string", .str task.UUID⟩ :: task.Args ∧
    reflectArgs dec (effectiveArgs task cfg)
        = (match dec "string" (.str task.UUID) with
           | .error e => .error e
           | .ok v =>
             match reflectArgs dec task.Args with
             | .error e => .error e
             | .ok vs => .ok (v :: vs)) := by
  have hargs : effectiveArgs task cfg = ⟨"string", .str task.UUID⟩ :: task.Args := by
    unfold effectiveArgs
    rw [if_pos h]
  constructor
  · rw [consumeOne_argsUsed]
    exact hargs
  · rw [hargs]
    rfl

/-- C7 witness: a one-argument task with the flag set; the synthetic
UUID argument lands first and the original argument second. -/
theorem uuid_first_arg_prepended_witness :
    (consumeOne ⟨"t", "uuid-1", [⟨"int", .int 5⟩]⟩ ⟨0, fun _ => .ret [], true⟩
        (fun _ v => .ok v) false).argsUsed
      = [⟨"string", .str "uuid-1"⟩, ⟨"int", .int 5⟩] ∧
    reflectArgs (fun _ v => .ok v)
        (effectiveArgs ⟨"t", "uuid-1", [⟨"int", .int 5⟩]⟩ ⟨0, fun _ => .ret [], true⟩)
      = .ok [.str "uuid-1", .int 5] :=
  uuid_first_arg_prepended ⟨"t", "uuid-1", [⟨"int", .int 5⟩]⟩
    ⟨0, fun _ => .ret [], true⟩ (fun _ v => .ok v) false rfl

/-- C8: with `TimeoutSeconds = 0` the handler is invoked synchronously
(no goroutine spawned) and `tryCall` returns `false`; and whenever the
guard returns, whatever flag it returns with, `consumeOne` issues the
same positive `Ack` — the flag never alters the acknowledgment. -/
theorem tryCall_zero_timeout_sync (call : CallOutcome) (timerFirst : Bool)
    (task : Task) (cfg : TaskConfigM) (dec : ReflectValueT) :
    ((tryCall call 0 timerFirst).returned = some false ∧
     (tryCall call 0 timerFirst).spawnedAsync = false) ∧
    (∀ vals flag, reflectArgs dec (effectiveArgs task cfg) = .ok vals →
      (tryCall (cfg.Function vals) cfg.TimeoutSeconds timerFirst).returned = some flag →
      (consumeOne task cfg dec timerFirst).decision = some .ack) := by
  constructor
  · cases call <;> simp [tryCall]
  · intro vals flag hok hret
    simp [consumeOne, hok, hret]

/-- C8 witness: a panicking synchronous call still returns "not timed
out" without spawning, and a returning guard yields `Ack`. -/
theorem tryCall_zero_timeout_sync_witness :
    ((tryCall CallOutcome.panics 0 true).returned = some false ∧
     (tryCall CallOutcome.panics 0 true).spawnedAsync = false) ∧
    (consumeOne ⟨"t", "u", []⟩ ⟨0, fun _ => .ret [], false⟩
        (fun _ v => .ok v) true).decision = some .ack :=
  ⟨(tryCall_zero_timeout_sync CallOutcome.panics true ⟨"t", "u", []⟩
      ⟨0, fun _ => .ret [], false⟩ (fun _ v => .ok v)).1,
   (tryCall_zero_timeout_sync (CallOutcome.ret []) true ⟨"t", "u", []⟩
      ⟨0, fun _ => .ret [], false⟩ (fun _ v => .ok v)).2 [] false rfl rfl⟩

/-- C9: `Close` on a worker whose `working` flag is false returns at
once with no shutdown actions and the worker unchanged; and a second
`Close` right after any `Close` is always such a no-op. -/
theorem close_not_working_noop (w : WorkerM) :
    (w.working = false → w.Close = ⟨w, false⟩) ∧
    (w.Close.w).Close = ⟨w.Close.w, false⟩ := by
  cases hw : w.working <;> simp [WorkerM.Close, hw]

/-- C9 witness: a never-started worker (no-op) and a working worker
whose second `Close` is a no-op. -/
theorem close_not_working_noop_witness :
    WorkerM.Close ⟨"w1", "q", 3, [], false, false⟩
      = ⟨⟨"w1", "q", 3, [], false, false⟩, false⟩ ∧
    (WorkerM.Close (WorkerM.Close ⟨"w2", "q", 3, [], true, true⟩).w)
      = ⟨(WorkerM.Close ⟨"w2", "q", 3, [], true, true⟩).w, false⟩ :=
  ⟨(close_not_working_noop ⟨"w1", "q", 3, [], false, false⟩).1 rfl,
   (close_not_working_noop ⟨"w2", "q", 3, [], true, true⟩).2⟩

end Dispatcher
